import Mathlib

/-!
Shallow embedding of the node-statsd client library (sivy/node-statsd) and
proofs about its sampling, encoding, batching, fan-out aggregation and
socket-lifecycle behaviour.

Modelling conventions:
- JavaScript numbers are modelled as rationals where an order comparison
  matters (sample rates, random draws) and as integers where only string
  rendering matters (metric values); numeric-to-string rendering is the
  Lean toString.
- The PRNG (Math.random or the Mersenne twister) is an explicit argument
  rnd; the number of draws actually consumed is recorded so that a claim
  of the form "randomness is not consulted" is expressible.
- A callback is modelled by the data it would receive; an invocation is a
  pair of the error slot and the bytes slot, so callback(null, 0) is the
  pair (none, some 0).
- The optional JS parameter sampleRate is an Option; the JS truthiness
  test on a number (0 and NaN are falsy) is modelled as a comparison with
  0 on rationals.
-/

namespace NodeStatsd

/-- One callback invocation: the error slot and the bytes slot.
callback(null, 0) is modelled as (none, some 0). -/
abbrev CbCall := Option String × Option Nat

/-- Configuration of the TypeScript client (src/lib/statsd.ts).  The field
named pre models the stat-name front padding option of the source (its
original source name is unavailable here); suffix, global_tags and mock
keep their source names.  The UDP socket created unconditionally at field
initialisation (statsd.ts line 29) is tracked by tsCreateClient. -/
structure TsClient where
  pre : String
  suffix : String
  global_tags : List String
  mock : Bool
deriving Repr, DecidableEq

/-- Observable effect of one call of Client.send in src/lib/statsd.ts:
the buffers handed to socket.send, the callback invocations performed
synchronously by send itself (the mock path), and how many PRNG draws
were consumed. -/
structure TsSendEffect where
  wireWrites : List String
  cbCalls : List CbCall
  randomDraws : Nat
deriving Repr, DecidableEq

/-- Message head built by Client.send (statsd.ts line 225):
front padding, stat, suffix, then a colon, the value and the type code. -/
def baseMessage (c : TsClient) (stat : String) (value : Int) (type_ : String) : String :=
  c.pre ++ stat ++ c.suffix ++ ":" ++ toString value ++ "|" ++ type_

/-- Tag merging of Client.send (statsd.ts lines 238 to 246): call tags are
concatenated in front of the global tags; when the merged list is
non-empty the joined tags are appended behind a hash marker. -/
def withTags (msg : String) (tags : Option (List String)) (global_tags : List String) : String :=
  let merged_tags := tags.getD [] ++ global_tags
  if merged_tags.length > 0 then msg ++ "|#" ++ String.intercalate "," merged_tags
  else msg

/-- Client.send of src/lib/statsd.ts (lines 224 to 257), also the send of
the batched variant in src/unnamed/part_000 (lines 1140 to 1169) up to the
final dispatch.  The sampling gate is the source conditional
"sampleRate && sampleRate < 1": a sampleRate of exactly 0 is falsy, so it
bypasses the gate; inside the gate one PRNG draw is made and the call
returns early (no write, no callback) when the draw fails.  The mock path
invokes the callback with (null, 0) instead of writing. -/
def tsSend (c : TsClient) (stat : String) (value : Int) (type_ : String)
    (sampleRate : Option ℚ) (tags : Option (List String))
    (hasCallback : Bool) (rnd : ℚ) : TsSendEffect :=
  let message := baseMessage c stat value type_
  let draws : Nat :=
    match sampleRate with
    | some r => if r ≠ 0 ∧ r < 1 then 1 else 0
    | none => 0
  let sampled : Option String :=
    match sampleRate with
    | some r =>
      if r ≠ 0 ∧ r < 1 then
        if rnd < r then some (message ++ "|@" ++ toString r) else none
      else some message
    | none => some message
  match sampled with
  | none => ⟨[], [], draws⟩
  | some m =>
    let m2 := withTags m tags c.global_tags
    if c.mock then ⟨[], if hasCallback then [(none, some 0)] else [], draws⟩
    else ⟨[m2], [], draws⟩

/-- Construction of the TypeScript client: the field initialiser at
statsd.ts line 29 runs dgram.createSocket for every construction,
regardless of the mock flag.  The second component lists the sockets
created. -/
def tsCreateClient (pre suffix : String) (global_tags : List String) (mock : Bool)
    (freshSocket : Nat) : TsClient × List Nat :=
  (⟨pre, suffix, global_tags, mock⟩, [freshSocket])

/-- Sample-rate coercion of Client.prototype.send in src/lib/statsd.js
(lines 92 to 95): "if (!sample_rate) sample_rate = 1" replaces a falsy
rate (absent or exactly 0) by 1. -/
def jsCoerceRate (sample_rate : Option ℚ) : ℚ :=
  match sample_rate with
  | none => 1
  | some r => if r = 0 then 1 else r

/-- Client.prototype.send of src/lib/statsd.js (lines 91 to 113) over a
stats dictionary given as an association list (stat name, already
rendered value-and-type string).  Returns the buffers handed to
send_data and the number of Mersenne-twister draws consumed. -/
def jsSend (data : List (String × String)) (sample_rate : Option ℚ) (rnd : ℚ) :
    List String × Nat :=
  let rate := jsCoerceRate sample_rate
  if rate < 1 then
    if rnd ≤ rate then
      (data.map (fun p => p.1 ++ ":" ++ p.2 ++ "|@" ++ toString rate), 1)
    else ([], 1)
  else
    (data.map (fun p => p.1 ++ ":" ++ p.2), 0)

namespace StatsdJs

/-- Socket and timer state of the ephemeral-socket client of
src/lib/statsd.js: an optional injected shared socket, an optional demand
allocated ephemeral socket, and an optional pending idle-teardown timer.
Sockets and timers are identified by numeric handles. -/
structure Client where
  socket : Option Nat
  ephemeral_socket : Option Nat
  last_used_timer : Option Nat
deriving Repr, DecidableEq

/-- Runtime error raised by evaluating an identifier that is not bound in
any scope, as JavaScript does for the misspelled cancelTimeout. -/
inductive JsError where
  | referenceError (name : String)
deriving Repr, DecidableEq

/-- Client.prototype._update_last_used (statsd.js lines 58 to 67): when an
ephemeral socket exists, the previous idle timer is cleared and a fresh
one is armed; with a shared socket (no ephemeral one) nothing happens. -/
def update_last_used (c : Client) (freshTimer : Nat) : Client :=
  if c.ephemeral_socket.isSome then { c with last_used_timer := some freshTimer } else c

/-- Client.prototype.send_data (statsd.js lines 69 to 89): pick the shared
socket when injected, otherwise reuse or demand-allocate the ephemeral
socket, refresh the idle timer, and write the buffer.  Returns the new
state, the handle of the socket written to, and the buffer written. -/
def send_data (c : Client) (buffer : String) (freshSocket freshTimer : Nat) :
    Client × Nat × String :=
  match c.socket with
  | some s => (update_last_used c freshTimer, s, buffer)
  | none =>
    match c.ephemeral_socket with
    | some e => (update_last_used c freshTimer, e, buffer)
    | none =>
      let c1 : Client := { c with ephemeral_socket := some freshSocket }
      (update_last_used c1 freshTimer, freshSocket, buffer)

/-- Client.prototype.close (statsd.js lines 115 to 128).  The shared
socket, when present, is closed first; then the ephemeral socket; finally
the pending idle timer is cancelled through the identifier cancelTimeout,
which is bound nowhere (JavaScript provides clearTimeout), so that branch
raises a ReferenceError.  On normal return the result carries the new
state and the handles of every socket that was closed, in closing
order. -/
def close (c : Client) : Except JsError (Client × List Nat) :=
  let step1 : Client × List Nat :=
    match c.socket with
    | some s => ({ c with socket := none }, [s])
    | none => (c, [])
  let step2 : Client × List Nat :=
    match step1.1.ephemeral_socket with
    | some s => ({ step1.1 with ephemeral_socket := none }, step1.2 ++ [s])
    | none => step1
  match step2.1.last_used_timer with
  | some _ => Except.error (JsError.referenceError "cancelTimeout")
  | none => Except.ok step2

end StatsdJs

/-- Outcome delivered by one underlying single-metric send to the onSend
aggregator of sendAll: an optional error and the byte count. -/
structure SendOutcome where
  error : Option String
  bytes : Nat
deriving Repr, DecidableEq

/-- Invocation of the facade callback made by sendAll: either the first
error or the summed byte count. -/
inductive CbInv where
  | err (e : String)
  | ok (bytes : Nat)
deriving Repr, DecidableEq

/-- Mutable closure state of Client.prototype.sendAll
(src/unnamed/part_000 lines 1083 to 1129, identically statsd.ts lines 168
to 213): the completed counter, the calledback flag, and the running byte
sum. -/
structure AggSt where
  completed : Nat
  calledback : Bool
  sentBytes : Nat
deriving Repr, DecidableEq

/-- One step of the inner onSend function of sendAll: increment completed,
return early once calledback is set, report the first error immediately,
otherwise accumulate bytes and fire the facade callback when completed
reaches the length of the stat array.  The second component lists the
facade-callback invocations made by this step. -/
def onSend (statLen : Nat) (st : AggSt) (o : SendOutcome) : AggSt × List CbInv :=
  if st.calledback then ({ st with completed := st.completed + 1 }, [])
  else
    match o.error with
    | some e => (⟨st.completed + 1, true, st.sentBytes⟩, [CbInv.err e])
    | none =>
      if st.completed + 1 = statLen then
        (⟨st.completed + 1, st.calledback, st.sentBytes + o.bytes⟩,
         [CbInv.ok (st.sentBytes + o.bytes)])
      else
        (⟨st.completed + 1, st.calledback, st.sentBytes + o.bytes⟩, [])

/-- Run of the onSend aggregator over the underlying send outcomes in
completion order, collecting every facade-callback invocation. -/
def runAgg (statLen : Nat) (st : AggSt) : List SendOutcome → AggSt × List CbInv
  | [] => (st, [])
  | o :: rest =>
    let step := onSend statLen st o
    let next := runAgg statLen step.1 rest
    (next.1, step.2 ++ next.2)

/-- Facade-callback invocations produced by sendAll for a stat array of
the given length, when the underlying per-name sends deliver the given
outcomes in the given completion order.  The closure starts with
completed 0, calledback false and sentBytes 0. -/
def sendAllCb (statLen : Nat) (outcomes : List SendOutcome) : List CbInv :=
  (runAgg statLen ⟨0, false, 0⟩ outcomes).2

/-- Error of the first outcome carrying one, in completion order. -/
def firstError : List SendOutcome → Option String
  | [] => none
  | o :: rest =>
    match o.error with
    | some e => some e
    | none => firstError rest

/-- Sum of the byte counts of a list of outcomes. -/
def sumBytes (l : List SendOutcome) : Nat :=
  (l.map (fun o => o.bytes)).sum

/-- One message queued by the batching client of src/unnamed/part_000: the
encoded message text and the identity of its callback, when one was
given. -/
structure PendingMsg where
  message : String
  callback : Option Nat
deriving Repr, DecidableEq

/-- Buffers written by Client.prototype._sendBatch (part_000 lines 956 to
975): nothing for an empty queue, otherwise the single newline-join of
the queued messages in queue order. -/
def flushWrites (pending : List PendingMsg) : List String :=
  match pending with
  | [] => []
  | _ => [String.intercalate "\n" (pending.map (fun p => p.message))]

/-- Client.prototype._sendBatch observed through to completion of its one
underlying write: the buffers written, and the per-message callback
invocations performed once the write completes with the given error slot
(each present callback is invoked with exactly that error, in queue
order).  An empty queue writes nothing and invokes nothing. -/
def sendBatch (pending : List PendingMsg) (writeErr : Option String) :
    List String × List (Nat × Option String) :=
  match pending with
  | [] => ([], [])
  | _ =>
    (flushWrites pending,
     pending.filterMap (fun p => p.callback.map (fun id => (id, writeErr))))

/-- Batch accumulator state of the batching client (part_000 lines 950 to
953 and 977 to 999): the queue, the batchLength counter (sum of message
lengths, with no account of newline separators), and whether the
maxBatchDelay timer is armed. -/
structure BatchSt where
  pendingMessages : List PendingMsg
  batchLength : Nat
  sendTimeout : Bool
deriving Repr, DecidableEq

/-- Client.prototype._addToBatch (part_000 lines 977 to 999).  A falsy
(empty) message is ignored.  Otherwise, when batchLength plus the new
message length exceeds maxBatchLength, the current queue is flushed and
the armed timer is cleared; when no flush happens and no timer is armed,
the timer is armed.  In every non-falsy case the message is then pushed
and batchLength grows by its length.  The second component lists the
buffers flushed by this call. -/
def addToBatch (maxBatchLength : Nat) (st : BatchSt) (message : String)
    (cb : Option Nat) : BatchSt × List String :=
  if message = "" then (st, [])
  else
    let step : BatchSt × List String :=
      if st.batchLength + message.length > maxBatchLength then
        (⟨[], 0, false⟩, flushWrites st.pendingMessages)
      else if !st.sendTimeout then ({ st with sendTimeout := true }, [])
      else (st, [])
    ({ step.1 with
        pendingMessages := step.1.pendingMessages ++ [⟨message, cb⟩],
        batchLength := step.1.batchLength + message.length },
     step.2)

/-- Decision of the sampling gate of tsSend (statsd.ts lines 229 to 235):
true exactly when the early-return branch is NOT taken, i.e. the rate is
absent, falsy, not below 1, or the random draw succeeds. -/
def samplePasses (sampleRate : Option ℚ) (rnd : ℚ) : Bool :=
  match sampleRate with
  | none => true
  | some r =>
    if r ≠ 0 ∧ r < 1 then (if rnd < r then true else false) else true

/-- Concrete sample rate one half, built from the raw constructor so that
kernel evaluation works on it. -/
def oneHalf : ℚ := ⟨1, 2, by decide, by decide⟩

/-- C1 counterexample: with sampleRate exactly 0 a transport write DOES
occur.  In statsd.ts the gate "sampleRate && sampleRate < 1" treats 0 as
falsy and is skipped, so send writes the plain message with no zero-byte
callback; in statsd.js the coercion "if (!sample_rate) sample_rate = 1"
turns 0 into 1 and the message is written as well.  This refutes the
claim that no write occurs and that the callback fires with success and
zero bytes. -/
theorem c1_sampleRateZero_writes_counterexample :
    (tsSend ⟨"", "", [], false⟩ "foo" 1 "c" (some 0) none true 0).wireWrites = ["foo:1|c"] ∧
    (tsSend ⟨"", "", [], false⟩ "foo" 1 "c" (some 0) none true 0).cbCalls = [] ∧
    (jsSend [("foo", "1|c")] (some 0) 0).1 = ["foo:1|c"] := by
  decide

/-- C1 amended: a metric call with sampleRate exactly 0 behaves exactly
like a call with the sampleRate absent, because 0 is falsy: the sampling
branch is bypassed, no randomness is consulted, and (for a non-mock
client) exactly one transport write of the plain tagged message occurs,
with the callback attached to that write rather than fired with a
synthetic zero-byte success.  The same holds of the statsd.js send, where
a rate of 0 is coerced to 1. -/
theorem c1_sampleRateZero_bypasses_sampling (c : TsClient) (stat : String) (value : Int)
    (type_ : String) (tags : Option (List String)) (hcb : Bool) (rnd : ℚ)
    (hm : c.mock = false) (data : List (String × String)) :
    tsSend c stat value type_ (some 0) tags hcb rnd
      = tsSend c stat value type_ none tags hcb rnd ∧
    (tsSend c stat value type_ (some 0) tags hcb rnd).wireWrites
      = [withTags (baseMessage c stat value type_) tags c.global_tags] ∧
    (tsSend c stat value type_ (some 0) tags hcb rnd).randomDraws = 0 ∧
    jsSend data (some 0) rnd = jsSend data none rnd := by
  refine ⟨?_, ?_, ?_, ?_⟩ <;> simp [tsSend, jsSend, jsCoerceRate, hm]

/-- C1 witness: the amended theorem applied to a concrete non-mock client
at sampleRate 0. -/
theorem c1_witness :
    tsSend ⟨"", "", [], false⟩ "foo" 1 "c" (some 0) none true 0
      = tsSend ⟨"", "", [], false⟩ "foo" 1 "c" none none true 0 ∧
    (tsSend ⟨"", "", [], false⟩ "foo" 1 "c" (some 0) none true 0).wireWrites
      = [withTags (baseMessage ⟨"", "", [], false⟩ "foo" 1 "c") none []] ∧
    (tsSend ⟨"", "", [], false⟩ "foo" 1 "c" (some 0) none true 0).randomDraws = 0 ∧
    jsSend [("foo", "1|c")] (some 0) 0 = jsSend [("foo", "1|c")] none 0 :=
  c1_sampleRateZero_bypasses_sampling ⟨"", "", [], false⟩ "foo" 1 "c" none true 0 rfl
    [("foo", "1|c")]

/-- C2 counterexample: a call with sampleRate one half whose random draw
fails the test writes nothing AND never invokes the callback: the source
returns early with a bare return, so no success indication is ever
delivered, refuting the claim that the completion callback still fires. -/
theorem c2_sampledOut_noCallback_counterexample :
    (tsSend ⟨"", "", [], false⟩ "a" 1 "c" (some oneHalf) none true oneHalf).wireWrites = [] ∧
    (tsSend ⟨"", "", [], false⟩ "a" 1 "c" (some oneHalf) none true oneHalf).cbCalls = [] := by
  decide

/-- C2 amended: when 0 < sampleRate < 1 and the random draw fails the
test (rnd not below the rate), send consumes exactly one draw and then
returns early: zero transport writes and zero callback invocations of any
kind.  The caller gets no completion signal at all, neither success nor
error. -/
theorem c2_sampledOut_silent (c : TsClient) (stat : String) (value : Int) (type_ : String)
    (tags : Option (List String)) (hcb : Bool) (r rnd : ℚ)
    (h0 : r ≠ 0) (h1 : r < 1) (hfail : ¬ rnd < r) :
    tsSend c stat value type_ (some r) tags hcb rnd = ⟨[], [], 1⟩ := by
  simp [tsSend, h0, h1, hfail]

/-- C2 witness: the amended theorem applied at sampleRate one half with a
draw of one half, which fails the strict comparison. -/
theorem c2_witness :
    tsSend ⟨"", "", [], false⟩ "a" 1 "c" (some oneHalf) none true oneHalf = ⟨[], [], 1⟩ :=
  c2_sampledOut_silent ⟨"", "", [], false⟩ "a" 1 "c" none true oneHalf oneHalf
    (by decide) (by decide) (by decide)

/-- C4 counterexample: a client holding only an injected shared socket
(handle 7, no ephemeral socket, no pending timer) has close() close that
shared socket: the closed-socket list of the normal return is [7], the
shared handle, refuting the claim that close never closes an injected
shared socket. -/
theorem c4_close_closes_shared_counterexample :
    StatsdJs.close ⟨some 7, none, none⟩
      = Except.ok (⟨none, none, none⟩, [7]) := rfl

/-- C4 amended: close() DOES close the injected shared socket.  For every
client holding a shared socket, when no idle timer is pending (the normal
situation for a shared-socket client, since the timer is only armed for
ephemeral sockets), close returns normally with the shared socket among
the closed handles and the socket field cleared. -/
theorem c4_close_shared_socket (c : StatsdJs.Client) (s : Nat)
    (hs : c.socket = some s) (ht : c.last_used_timer = none) :
    ∃ c2 closed, StatsdJs.close c = Except.ok (c2, closed) ∧ s ∈ closed ∧ c2.socket = none := by
  cases he : c.ephemeral_socket with
  | none =>
    exact ⟨{ c with socket := none }, [s],
      by simp [StatsdJs.close, hs, he, ht], by simp, rfl⟩
  | some e =>
    exact ⟨{ c with socket := none, ephemeral_socket := none }, [s, e],
      by simp [StatsdJs.close, hs, he, ht], by simp, rfl⟩

/-- C4 witness: the amended theorem applied to the concrete shared-socket
client with handle 7. -/
theorem c4_witness :
    ∃ c2 closed, StatsdJs.close ⟨some 7, none, none⟩ = Except.ok (c2, closed) ∧
      7 ∈ closed ∧ c2.socket = none :=
  c4_close_shared_socket ⟨some 7, none, none⟩ 7 rfl rfl

/-- C10: in the ephemeral-socket client of src/lib/statsd.js, close()
called while the idle-teardown timer is pending reaches the cleanup
branch that evaluates the unbound identifier cancelTimeout and therefore
raises a ReferenceError instead of returning normally; and this state is
reachable from ordinary use, since one send_data call on a fresh client
with no shared socket allocates an ephemeral socket and arms the timer. -/
theorem c10_close_reference_error (c : StatsdJs.Client) (t : Nat)
    (h : c.last_used_timer = some t) :
    StatsdJs.close c = Except.error (StatsdJs.JsError.referenceError "cancelTimeout") ∧
    ((StatsdJs.send_data ⟨none, none, none⟩ "a:1|c" 1 2).1).last_used_timer = some 2 := by
  refine ⟨?_, by decide⟩
  cases hs : c.socket <;> cases he : c.ephemeral_socket <;>
    simp [StatsdJs.close, hs, he, h]

/-- C10 witness: the theorem applied to the exact state produced by one
send on a fresh ephemeral-socket client. -/
theorem c10_witness :
    StatsdJs.close ⟨none, some 1, some 2⟩
      = Except.error (StatsdJs.JsError.referenceError "cancelTimeout") ∧
    ((StatsdJs.send_data ⟨none, none, none⟩ "a:1|c" 1 2).1).last_used_timer = some 2 :=
  c10_close_reference_error ⟨none, some 1, some 2⟩ 2 rfl

/-- C5 counterexample: constructing a mock client still creates a UDP
socket (the field initialiser at statsd.ts line 29 runs unconditionally),
refuting "no socket is ever created"; and a mock call whose random draw
fails the sampling test returns early before the mock branch, so its
callback never fires, refuting "every metric call callback fires with
success and zero bytes". -/
theorem c5_mock_counterexample :
    (tsCreateClient "" "" [] true 42).2 = [42] ∧
    tsSend ⟨"", "", [], true⟩ "a" 1 "c" (some oneHalf) none true oneHalf
      = ⟨[], [], 1⟩ := by
  decide

/-- C5 amended: with mock true, the created socket is never written to
(every call produces zero wire writes, whatever the sample rate and the
draw), and every call that is not dropped by the sampling gate — the rate
absent, exactly 1, falsy, or the draw passing — fires its callback
synchronously with success and zero bytes. -/
theorem c5_mock_no_write (c : TsClient) (hm : c.mock = true)
    (stat : String) (value : Int) (type_ : String)
    (sr : Option ℚ) (tags : Option (List String)) (rnd : ℚ) :
    (tsSend c stat value type_ sr tags true rnd).wireWrites = [] ∧
    (samplePasses sr rnd = true →
      (tsSend c stat value type_ sr tags true rnd).cbCalls = [(none, some 0)]) := by
  cases sr with
  | none => simp [tsSend, hm, samplePasses]
  | some r =>
    by_cases h1 : r ≠ 0 ∧ r < 1
    · by_cases h2 : rnd < r
      · simp [tsSend, hm, samplePasses, h1, h2]
      · refine ⟨by simp [tsSend, hm, h1, h2], ?_⟩
        intro hp
        simp [samplePasses, h1, h2] at hp
    · simp [tsSend, hm, samplePasses, h1]

/-- C5 witness: the amended theorem applied to a concrete mock client at
sampleRate exactly 1, with the gate-pass hypothesis discharged. -/
theorem c5_witness :
    (tsSend ⟨"", "", [], true⟩ "a" 1 "c" (some 1) none true 0).wireWrites = [] ∧
    (tsSend ⟨"", "", [], true⟩ "a" 1 "c" (some 1) none true 0).cbCalls = [(none, some 0)] := by
  have h := c5_mock_no_write ⟨"", "", [], true⟩ rfl "a" 1 "c" (some 1) none 0
  exact ⟨h.1, h.2 (by decide)⟩

/-- C6 counterexample: with maxBatchLength 4, adding "ab" then "cd" does
not trigger a flush (the batchLength counter ignores the newline
separator: 2 + 2 is not above 4), and the flush forced by the third add
emits the buffer "ab\ncd" of length 5, which exceeds maxBatchLength even
though it holds two messages of length 2 each.  This refutes both the
claimed separator-aware trigger and the claimed bound on flushed
buffers. -/
theorem c6_batch_overflow_counterexample :
    (addToBatch 4 (addToBatch 4 (addToBatch 4 ⟨[], 0, false⟩ "ab" none).1 "cd" none).1
        "ef" none).2 = ["ab\ncd"] ∧
    ("ab\ncd").length > 4 ∧ ("ab").length ≤ 4 ∧ ("cd").length ≤ 4 := by
  decide

/-- C6 amended: the size trigger compares batchLength plus the raw length
of the new message against maxBatchLength, with no account of newline
separators.  When a non-empty message trips that trigger, the current
queue is flushed first (as one newline-joined buffer, which may exceed
maxBatchLength by the number of separators) and the new message then
starts a fresh batch with the timer cleared. -/
theorem c6_batch_size_trigger (maxBatchLength : Nat) (st : BatchSt) (message : String)
    (cb : Option Nat) (hne : message ≠ "")
    (hover : st.batchLength + message.length > maxBatchLength) :
    addToBatch maxBatchLength st message cb
      = (⟨[⟨message, cb⟩], message.length, false⟩, flushWrites st.pendingMessages) := by
  simp [addToBatch, hne, hover]

/-- C6 witness: the amended theorem applied to a full queue of two
two-byte messages with maxBatchLength 4. -/
theorem c6_witness :
    addToBatch 4 ⟨[⟨"ab", none⟩, ⟨"cd", none⟩], 4, true⟩ "ef" none
      = (⟨[⟨"ef", none⟩], 2, false⟩, ["ab\ncd"]) :=
  (c6_batch_size_trigger 4 ⟨[⟨"ab", none⟩, ⟨"cd", none⟩], 4, true⟩ "ef" none
    (by decide) (by decide)).trans (by decide)

/-- C7: for every non-empty flush, the queued messages are joined with a
newline in queue order into exactly one transport write, and the queued
callbacks are each invoked exactly once, in queue order, every one with
the same outcome of that single write. -/
theorem c7_flush_multiplex (pending : List PendingMsg) (writeErr : Option String)
    (hne : pending ≠ []) :
    (sendBatch pending writeErr).1
      = [String.intercalate "\n" (pending.map (fun p => p.message))] ∧
    (sendBatch pending writeErr).2
      = (pending.filterMap (fun p => p.callback)).map (fun id => (id, writeErr)) := by
  match pending with
  | [] => exact absurd rfl hne
  | p :: rest =>
    refine ⟨rfl, ?_⟩
    simp [sendBatch, List.map_filterMap]

/-- C7 witness: the theorem applied to a concrete three-message batch,
two of which carry callbacks, with a failing write. -/
theorem c7_witness :
    (sendBatch [⟨"a:1|c", some 0⟩, ⟨"b:2|c", none⟩, ⟨"c:3|c", some 1⟩] (some "ERR")).1
      = ["a:1|c\nb:2|c\nc:3|c"] ∧
    (sendBatch [⟨"a:1|c", some 0⟩, ⟨"b:2|c", none⟩, ⟨"c:3|c", some 1⟩] (some "ERR")).2
      = [(0, some "ERR"), (1, some "ERR")] := by
  have h := c7_flush_multiplex
    [⟨"a:1|c", some 0⟩, ⟨"b:2|c", none⟩, ⟨"c:3|c", some 1⟩] (some "ERR") (by decide)
  exact ⟨h.1.trans (by decide), h.2.trans (by decide)⟩

/-- C8: call-specific tags are concatenated before the global tags of the
client, each list in its given order, with no deduplication and no
sorting, and a non-empty merged list is rendered behind a hash marker as
the comma-join; the single write of a non-mock unsampled send is exactly
the base message followed by that suffix. -/
theorem c8_tag_merge (c : TsClient) (hm : c.mock = false)
    (stat : String) (value : Int) (type_ : String) (tags : List String) (rnd : ℚ)
    (hne : tags ++ c.global_tags ≠ []) :
    (tsSend c stat value type_ none (some tags) true rnd).wireWrites
      = [baseMessage c stat value type_ ++ "|#"
          ++ String.intercalate "," (tags ++ c.global_tags)] := by
  have hlen : 0 < (tags ++ c.global_tags).length := List.length_pos.mpr hne
  simp [tsSend, withTags, hm, hlen, String.append_assoc]
  intro h1 h2
  exact absurd (by simp [h1, h2]) hne

/-- C8 witness: the theorem applied to the spec example, call tag list
["a"] against global tags ["b","c"], yielding "foo:1|c|#a,b,c". -/
theorem c8_witness :
    (tsSend ⟨"", "", ["b", "c"], false⟩ "foo" 1 "c" none (some ["a"]) true 0).wireWrites
      = ["foo:1|c|#a,b,c"] :=
  (c8_tag_merge ⟨"", "", ["b", "c"], false⟩ rfl "foo" 1 "c" ["a"] 0 (by decide)).trans
    (by decide)

/-- C9: with sampleRate exactly 1 or absent, the sampling gate passes
without consulting randomness at all (zero PRNG draws, and the result
does not depend on the draw argument), and the call results in exactly
one transport write of the tagged base message with no sample-rate
annotation appended; likewise the statsd.js send makes no Mersenne draw
and writes every stat without annotation. -/
theorem c9_rate_one_no_draw (c : TsClient) (hm : c.mock = false)
    (stat : String) (value : Int) (type_ : String) (tags : Option (List String))
    (sr : Option ℚ) (hsr : sr = none ∨ sr = some 1)
    (rnd rnd2 : ℚ) (data : List (String × String)) :
    (tsSend c stat value type_ sr tags true rnd).randomDraws = 0 ∧
    tsSend c stat value type_ sr tags true rnd
      = tsSend c stat value type_ sr tags true rnd2 ∧
    (tsSend c stat value type_ sr tags true rnd).wireWrites
      = [withTags (baseMessage c stat value type_) tags c.global_tags] ∧
    (jsSend data sr rnd).2 = 0 ∧
    (jsSend data sr rnd).1 = data.map (fun p => p.1 ++ ":" ++ p.2) := by
  rcases hsr with h | h <;> subst h <;>
    simp [tsSend, jsSend, jsCoerceRate, hm]

/-- C9 witness: the theorem applied at sampleRate exactly 1 to a concrete
client and a one-entry stats dictionary. -/
theorem c9_witness :
    (tsSend ⟨"", "", [], false⟩ "a" 1 "c" (some 1) none true 0).randomDraws = 0 ∧
    tsSend ⟨"", "", [], false⟩ "a" 1 "c" (some 1) none true 0
      = tsSend ⟨"", "", [], false⟩ "a" 1 "c" (some 1) none true 1 ∧
    (tsSend ⟨"", "", [], false⟩ "a" 1 "c" (some 1) none true 0).wireWrites
      = [withTags (baseMessage ⟨"", "", [], false⟩ "a" 1 "c") none []] ∧
    (jsSend [("x", "1|c")] (some 1) 0).2 = 0 ∧
    (jsSend [("x", "1|c")] (some 1) 0).1
      = [("x", "1|c")].map (fun p => p.1 ++ ":" ++ p.2) :=
  c9_rate_one_no_draw ⟨"", "", [], false⟩ rfl "a" 1 "c" none (some 1) (Or.inr rfl) 0 1
    [("x", "1|c")]

/-- Helper: once the calledback flag is set, the aggregator makes no
further facade-callback invocation, whatever outcomes still arrive. -/
theorem runAgg_after_calledback (n : Nat) (l : List SendOutcome) :
    ∀ st : AggSt, st.calledback = true → (runAgg n st l).2 = [] := by
  induction l with
  | nil => intro st _; rfl
  | cons o rest ih =>
    intro st h
    simp only [runAgg, onSend, h, if_true, List.nil_append]
    exact ih _ rfl

/-- Helper: invariant run of the sendAll aggregator.  From a state with
the calledback flag clear whose completed counter plus the number of
remaining outcomes equals the stat-array length, a non-empty remainder
produces exactly one facade-callback invocation: the first error in
completion order, or the accumulated byte sum on full success. -/
theorem runAgg_spec (n : Nat) (l : List SendOutcome) :
    ∀ st : AggSt, st.calledback = false → st.completed + l.length = n → l ≠ [] →
    (runAgg n st l).2 =
      (match firstError l with
       | some e => [CbInv.err e]
       | none => [CbInv.ok (st.sentBytes + sumBytes l)]) := by
  induction l with
  | nil => intro st _ _ hne; exact absurd rfl hne
  | cons o rest ih =>
    intro st hcb hlen _
    cases ho : o.error with
    | some e =>
      simp only [runAgg, onSend, hcb, Bool.false_eq_true, if_false, ho, firstError]
      rw [runAgg_after_calledback n rest _ rfl]
      simp
    | none =>
      by_cases hdone : st.completed + 1 = n
      · have hrest : rest = [] := by
          have : rest.length = 0 := by
            simp only [List.length_cons] at hlen
            omega
          exact List.eq_nil_of_length_eq_zero this
        subst hrest
        simp [runAgg, onSend, hcb, ho, hdone, firstError, sumBytes]
      · have hrestne : rest ≠ [] := by
          intro hr
          subst hr
          simp only [List.length_cons, List.length_nil] at hlen
          omega
        have hstep := ih ⟨st.completed + 1, false, st.sentBytes + o.bytes⟩ rfl
          (by simp only [List.length_cons] at hlen ⊢; omega) hrestne
        simp only [runAgg, onSend, hcb, Bool.false_eq_true, if_false, ho, hdone,
          List.nil_append, firstError]
        rw [hstep]
        cases hfe : firstError rest <;>
          simp [hfe, sumBytes, Nat.add_assoc]

/-- C3 counterexample: a facade metric call over the empty name sequence
never fires its callback at all: forEach performs no sends, onSend is
never invoked, and completed never reaches the array length, refuting
the claimed exactly-once callback for the empty sequence. -/
theorem c3_emptyFanout_counterexample :
    sendAllCb 0 [] = [] ∧ (sendAllCb 0 []).length ≠ 1 := by
  decide

/-- C3 amended: for a NON-EMPTY name sequence whose per-name sends each
complete exactly once, the facade callback fires exactly once: with the
first error in completion order when any send fails (fired as soon as
that error arrives), or with the summed bytes of all sends on full
success.  For the empty sequence the callback never fires (see the
counterexample). -/
theorem c3_fanout_aggregation (statLen : Nat) (outcomes : List SendOutcome)
    (hlen : outcomes.length = statLen) (hne : outcomes ≠ []) :
    sendAllCb statLen outcomes =
      (match firstError outcomes with
       | some e => [CbInv.err e]
       | none => [CbInv.ok (sumBytes outcomes)]) := by
  have h := runAgg_spec statLen outcomes ⟨0, false, 0⟩ rfl (by simpa using hlen) hne
  simpa [sendAllCb] using h

/-- C3 witness: the amended theorem applied to a two-name fan-out whose
sends deliver 5 and 7 bytes, firing the callback once with 12 bytes. -/
theorem c3_witness :
    sendAllCb 2 [⟨none, 5⟩, ⟨none, 7⟩] = [CbInv.ok 12] :=
  (c3_fanout_aggregation 2 [⟨none, 5⟩, ⟨none, 7⟩] rfl (by decide)).trans (by decide)

end NodeStatsd
